import Mathlib

/-!
Shallow embedding of the asynchronous image-generation subsystem of the
fsipka/image-ai-api repository (src/src/controllers/paymentController.js,
generation section at lines 380-1013, together with the mongoose models
src/src/models/Generation.js and src/src/models/User.js).

Modelling conventions:
* Mongoose documents become Lean structures; the document database becomes a
  pair of finite partial maps (functions `Nat → Option _`) for users and
  generation records.
* `save()` on a mongoose document persists exactly the fields assigned by the
  calling method (mongoose writes the modified paths); the write-back helpers
  below therefore update only the fields that the corresponding JS method
  assigns, leaving every other stored field untouched.
* External I/O (the fal.ai provider, axios fetches, S3 uploads, `Date.now()`,
  `Math.random()` jitter) is modelled by oracles passed in environment
  structures; the code under test is deterministic in those oracles.
* JavaScript numbers that the code only ever treats as integers are `Int`
  (or `Nat` for credits, which the schema constrains to be non-negative);
  the float-valued generation settings (`guidanceScale`, `strength`) are `Rat`.
  Request-boundary parsing (`parseInt`, `parseFloat`) is modelled as already
  done, with `Option` encoding a missing/NaN value and the JS `x || d`
  defaulting captured by the `jsOr…` helpers (`0`, `""` and `null` are falsy).
* Database writes are assumed to succeed; infrastructure (connection) failures
  are out of scope, as in the specification.
-/

namespace ImageAI

/-- Generation lifecycle states, from the `status` enum of
`src/src/models/Generation.js` (pending / processing / completed / failed). -/
inductive GStatus where
  | pending
  | processing
  | completed
  | failed
deriving DecidableEq, Repr

/-- The slice of a `User` document (src/src/models/User.js) that the
generation subsystem reads and writes: the credit balance and the premium
flag.

`credits` is a non-negative number (schema: `min: 0`); `deductCredits` guards
`credits < amount` before subtracting, so `Nat` subtraction is exact here.

`isPremiumActive` — Modelled from the spec: the controllers read
`user.isPremiumActive` (paymentController.js lines 616, 747, 980) but no
declaration of this virtual appears in src/src/models/User.js; per the spec it
is the "premium/unlimited flag" supplied by the Account/Auth layer (§6), an
account attribute the orchestrator only consumes, so it is modelled as an
opaque boolean field of the account. -/
structure User where
  credits : Nat
  isPremiumActive : Bool
deriving DecidableEq, Repr

/-- The `parameters` subdocument of a generation record
(src/src/models/Generation.js lines 28-106).  `pprompt` is the (optional)
`parameters.prompt` duplicate of the record's own `prompt` field; the last
three fields are the legacy/back-compat parameters that `createGeneration`
leaves to their schema defaults. -/
structure Params where
  pprompt : Option String
  negativePrompt : String
  style : String
  quality : Int
  steps : Int
  guidanceScale : Rat
  seed : Option Int
  width : Int
  height : Int
  imageCount : Int
  num_images : Int
  strength : Rat
  guidance_scale : Rat
  num_inference_steps : Int
deriving DecidableEq, Repr

/-- A generation record (src/src/models/Generation.js).  Fields not read or
written by the generation subsystem (metadata, externalJobId, createdAt /
updatedAt timestamps) are omitted.  Timestamps are `Nat` milliseconds;
`processingTimeMs` is `Int` since it is a difference of clock readings. -/
structure Gen where
  userId : Nat
  originalImageUrl : Option String
  generatedImageUrls : List String
  prompt : String
  modelUsed : String
  params : Params
  creditsUsed : Nat
  status : GStatus
  processingStartedAt : Option Nat
  completedAt : Option Nat
  failureReason : Option String
  processingTimeMs : Option Int
deriving DecidableEq, Repr

/-- The persistent state: the users collection and the generations
collection, keyed by numeric ids. -/
structure St where
  users : Nat → Option User
  gens : Nat → Option Gen

/-- Store (overwrite) generation record `gid`. -/
def updGen (s : St) (gid : Nat) (g : Gen) : St :=
  { s with gens := fun i => if i = gid then some g else s.gens i }

/-- Store (overwrite) user record `uid`. -/
def updUser (s : St) (uid : Nat) (u : User) : St :=
  { s with users := fun i => if i = uid then some u else s.users i }

/-! ### Credit ledger (src/src/models/User.js lines 142-154) -/

/-- `userSchema.methods.deductCredits`: throws `'Insufficient credits'` when
the balance is below the amount, otherwise subtracts and saves. -/
def deductCredits (u : User) (amount : Nat) : Except String User :=
  if u.credits < amount then .error "Insufficient credits"
  else .ok { u with credits := u.credits - amount }

/-! ### Provider adapter: `callFalAI` (paymentController.js lines 398-469) -/

/-- The shape of `result.data` returned by `fal.subscribe` as consumed by
`processGeneration` (lines 946-955): an optional `images` array (already
mapped through `img.url || img`, hence a list of strings), an optional
`image_url`, and an optional `url`. -/
structure FalData where
  images : Option (List String)
  image_url : Option String
  url : Option String
deriving DecidableEq, Repr

/-- Outcome of one `fal.subscribe` call: success with a data payload, or a
thrown error carrying a message. -/
inductive FalOutcome where
  | ok (data : FalData)
  | err (msg : String)
deriving DecidableEq, Repr

/-- Substring search on character lists: does `pat` occur (contiguously)
somewhere in the list?  (Structural recursion so that concrete instances
evaluate inside the kernel.) -/
def hasSubstr (pat : List Char) : List Char → Bool
  | [] => pat.isEmpty
  | c :: rest => pat.isPrefixOf (c :: rest) || hasSubstr pat rest

/-- JS `String.prototype.includes`: `pat` occurs as a substring of `s`. -/
def includesSub (s pat : String) : Bool :=
  hasSubstr pat.toList s.toList

/-- JS `String.prototype.startsWith`. -/
def startsWith (pre s : String) : Bool :=
  pre.toList.isPrefixOf s.toList

/-- JS `String.prototype.trim`: strip leading and trailing whitespace.  (The
JS whitespace class and `Char.isWhitespace` agree on the ASCII whitespace
relevant here.) -/
def jsTrim (s : String) : String :=
  String.mk (((s.toList.dropWhile Char.isWhitespace).reverse.dropWhile
    Char.isWhitespace).reverse)

/-- Rate-limit classification (lines 442-444): the error message contains
`'429'`, `'Too many requests'` or `'rate limit'`. -/
def isRateLimitError (msg : String) : Bool :=
  includesSub msg "429" || includesSub msg "Too many requests" ||
    includesSub msg "rate limit"

/-- Error surfaced after exhausting retries on a rate-limit condition
(line 463). -/
def overloadedMsg : String :=
  "AI generation service is temporarily overloaded. Please try again in a few minutes."

/-- Error surfaced for a non-rate-limit provider failure (line 465):
`'AI generation service unavailable: ' + (error.message || 'Unknown error')`. -/
def unavailableMsg (m : String) : String :=
  "AI generation service unavailable: " ++ (if m = "" then "Unknown error" else m)

/-- Result of a `callFalAI` run: how many provider calls were made, the
backoff delays slept between consecutive calls, and the final outcome. -/
structure FalCall where
  calls : Nat
  delays : List Nat
  result : Except String FalData
deriving Repr

/-- The retry loop of `callFalAI` (lines 402-469).  `k` is the current
0-indexed attempt, `env k` the outcome of the `k`-th provider call and
`jit k` the `Math.random() * 1000` jitter drawn before the `k`-th retry.
The loop retries only when the error is rate-limit classified and
`k < maxRetries`, sleeping `2 ^ k * 1000 + jit k` milliseconds first.

`fuel` bounds the recursion; the entry point supplies `fuel = maxRetries`,
which together with the loop structure guarantees `k < maxRetries` implies
`fuel > 0`, so the `fuel = 0` clause (where the rate-limit branch throws
the overloaded error exactly as the `k ≥ maxRetries` case does) coincides
with the source behaviour on every reachable argument. -/
def callFalGo (env : Nat → FalOutcome) (jit : Nat → Nat) (maxRetries : Nat) :
    Nat → Nat → FalCall
  | 0, k =>
    match env k with
    | .ok d => ⟨1, [], .ok d⟩
    | .err m =>
      if isRateLimitError m then ⟨1, [], .error overloadedMsg⟩
      else ⟨1, [], .error (unavailableMsg m)⟩
  | fuel + 1, k =>
    match env k with
    | .ok d => ⟨1, [], .ok d⟩
    | .err m =>
      if isRateLimitError m then
        if k < maxRetries then
          let r := callFalGo env jit maxRetries fuel (k + 1)
          ⟨r.calls + 1, (2 ^ k * 1000 + jit k) :: r.delays, r.result⟩
        else ⟨1, [], .error overloadedMsg⟩
      else ⟨1, [], .error (unavailableMsg m)⟩

/-- `callFalAI(prompt, imageUrl, parameters, maxRetries)` (line 402): runs the
retry loop from attempt 0.  The prompt, input image and parameters are passed
through to the external provider, whose behaviour the `env` oracle already
fixes, so they do not appear here.  `processGeneration` calls it with the
default `maxRetries = 3`. -/
def callFalAI (env : Nat → FalOutcome) (jit : Nat → Nat) (maxRetries : Nat) : FalCall :=
  callFalGo env jit maxRetries maxRetries 0

/-! ### Artifact store adapter: `downloadAndUploadToS3`
(paymentController.js lines 471-519) -/

/-- Oracle for the network/store side of `downloadAndUploadToS3`: whether the
axios fetch plus `uploadImage` S3 upload of a given remote URL succeeds, and
which S3 URL the upload returns when it does. -/
structure DlEnv where
  fetchStoreOk : String → Bool
  s3Url : String → String

/-- `downloadAndUploadToS3(imageUrl, filename)`:
* a falsy (empty) URL returns `null` (line 474);
* a `file://` local-scheme reference returns `null` without fetching
  (lines 479-482), and the catch-clause re-check (lines 512-515) keeps it
  `null` on any failure, so the fallback never applies to it;
* otherwise the image is fetched and uploaded; on any failure the original
  remote URL is returned as a degraded fallback (line 517).
The `filename` argument only names the S3 object and does not influence the
returned value, so it is omitted. -/
def downloadAndUploadToS3 (dl : DlEnv) (imageUrl : String) : Option String :=
  if imageUrl = "" then none
  else if startsWith "file://" imageUrl then none
  else if dl.fetchStoreOk imageUrl then some (dl.s3Url imageUrl)
  else some imageUrl

/-! ### Generation record methods (src/src/models/Generation.js lines 173-212)

Each method assigns some fields of the in-memory document and saves; mongoose
persists exactly the assigned paths.  `applyStart`, `completeWriteback` and
`failDoc` are those field assignments.  The `pre('save')` hook (lines
207-212) recomputes `processingTimeMs` only when the methods left it unset
with `processingStartedAt` present, a situation the methods below already
handle identically, so it needs no separate model. -/

/-- `startProcessing` (lines 174-178): status to processing, record the
start time. -/
def applyStart (g : Gen) (t : Nat) : Gen :=
  { g with status := .processing, processingStartedAt := some t }

/-- `complete(imageUrls)` (lines 181-191) as persisted: the method runs on
the in-flight in-memory document `doc`, assigning status / completedAt /
generatedImageUrls, plus processingTimeMs when `doc.processingStartedAt` is
set; the save applies those paths to the currently stored record `stored`
(which a concurrent cancel may meanwhile have changed). -/
def completeWriteback (stored doc : Gen) (urls : List String) (t : Nat) : Gen :=
  { stored with
    status := .completed
    completedAt := some t
    generatedImageUrls := urls
    processingTimeMs :=
      match doc.processingStartedAt with
      | some t0 => some ((t : Int) - (t0 : Int))
      | none => stored.processingTimeMs }

/-- `fail(reason)` (lines 194-204): status to failed, record the reason and
completion time, compute the duration when a start time is present.  Every
caller invokes it on a freshly loaded document, so document and stored record
coincide. -/
def failDoc (g : Gen) (reason : String) (t : Nat) : Gen :=
  { g with
    status := .failed
    failureReason := some reason
    completedAt := some t
    processingTimeMs :=
      match g.processingStartedAt with
      | some t0 => some ((t : Int) - (t0 : Int))
      | none => g.processingTimeMs }

/-- Reload generation `gid` and mark it failed, as the catch block of
`processGeneration` does (lines 990-997): a no-op when the record no longer
exists. -/
def failStored (s : St) (gid : Nat) (reason : String) (t : Nat) : St :=
  match s.gens gid with
  | none => s
  | some g => updGen s gid (failDoc g reason t)

/-! ### The orchestrator: `processGeneration`
(paymentController.js lines 927-1002) -/

/-- Extraction of the generated image URLs from the fal.ai response
(lines 946-955): prefer the `images` array (possibly empty), else a truthy
`image_url`, else a truthy `url`, else nothing.  JS truthiness makes an
empty-string `image_url` / `url` fall through. -/
def extractUrls (d : FalData) : List String :=
  match d.images with
  | some l => l
  | none =>
    match d.image_url with
    | some u => if u = "" then (match d.url with
        | some v => if v = "" then [] else [v]
        | none => []) else [u]
    | none =>
      match d.url with
      | some v => if v = "" then [] else [v]
      | none => []

/-- Environment of one `processGeneration` run: the `Date.now()` readings at
`startProcessing` (`t1`), at `complete` (`t2`) and in the catch-block `fail`
(`t3`), plus the provider, jitter and store oracles. -/
structure ProcEnv where
  t1 : Nat
  t2 : Nat
  t3 : Nat
  provider : Nat → FalOutcome
  jitter : Nat → Nat
  dl : DlEnv

/-- Entry of `processGeneration` (lines 929-936): load the record; a missing
record or one whose status is not pending is a silent no-op (`none`);
otherwise persist the pending → processing transition and hand the in-memory
document to the rest of the run. -/
def processPhase1 (s : St) (gid : Nat) (t : Nat) : Option (St × Gen) :=
  match s.gens gid with
  | none => none
  | some g =>
    if g.status = .pending then
      let doc := applyStart g t
      some (updGen s gid doc, doc)
    else none

/-- The credit-deduction tail of `processGeneration` (lines 978-983 plus the
catch block): reload the owner (`doc.userId`); a premium owner or a missing
owner leaves everything unchanged; otherwise `deductCredits(creditsUsed)`
either subtracts from the balance or throws `'Insufficient credits'`, in
which case the catch block reloads the record and marks it failed with that
message. -/
def deductStage (env : ProcEnv) (s2 : St) (gid : Nat) (doc : Gen) : St :=
  match s2.users doc.userId with
  | none => s2
  | some u =>
    if u.isPremiumActive then s2
    else if u.credits < doc.creditsUsed then
      failStored s2 gid "Insufficient credits" env.t3
    else updUser s2 doc.userId { u with credits := u.credits - doc.creditsUsed }

/-- Body of `processGeneration` after the processing transition (lines
938-1001), operating on the stale in-memory document `doc` captured at entry:
call the provider with retries; extract the image URLs (zero URLs is an
error); materialize each URL to S3, silently dropping the `null` ones; persist
completion through the stale document; then run the deduction stage.  Any
thrown error (provider failure, no images, insufficient credits) is caught,
the record reloaded and marked failed with the error message.  The second
component counts the provider calls made. -/
def processPhase2 (env : ProcEnv) (s : St) (gid : Nat) (doc : Gen) : St × Nat :=
  let fc := callFalAI env.provider env.jitter 3
  match fc.result with
  | .error msg => (failStored s gid msg env.t3, fc.calls)
  | .ok data =>
    let falImageUrls := extractUrls data
    if falImageUrls = [] then
      (failStored s gid "No images generated by FAL AI service" env.t3, fc.calls)
    else
      let uploaded := falImageUrls.filterMap (downloadAndUploadToS3 env.dl)
      let s2 :=
        match s.gens gid with
        | none => s
        | some cur => updGen s gid (completeWriteback cur doc uploaded env.t2)
      (deductStage env s2 gid doc, fc.calls)

/-- `processGeneration(generationId)` run to completion without interference:
the no-op guard, then the processing body.  Returns the resulting state and
the number of provider calls made. -/
def processGeneration (env : ProcEnv) (s : St) (gid : Nat) : St × Nat :=
  match processPhase1 s gid env.t1 with
  | none => (s, 0)
  | some (s1, doc) => processPhase2 env s1 gid doc

/-! ### The HTTP-facing operations (createGeneration, retryGeneration,
cancelGeneration; paymentController.js lines 575-821) -/

/-- JS `parseInt(x) || d` on an already-parsed optional integer: missing/NaN
and `0` are falsy and give the default. -/
def jsOrInt (v : Option Int) (d : Int) : Int :=
  match v with
  | none => d
  | some x => if x = 0 then d else x

/-- JS `parseFloat(x) || d` analogue for rationals. -/
def jsOrRat (v : Option Rat) (d : Rat) : Rat :=
  match v with
  | none => d
  | some x => if x = 0 then d else x

/-- JS `x || d` on an optional string: missing and empty are falsy. -/
def jsOrStr (v : Option String) (d : String) : String :=
  match v with
  | none => d
  | some x => if x = "" then d else x

/-- Line 612: `Math.min(Math.max(parseInt(imageCount) || 1, 1), 4)`. -/
def clampImages (n : Int) : Int :=
  min (max n 1) 4

/-- The request body of `POST /generations` as consumed by
`createGeneration` (lines 577-588), with the numeric fields already through
`parseInt` / `parseFloat` (`none` = missing or NaN). -/
structure CreateReq where
  inputImageUrl : Option String
  prompt : Option String
  negativePrompt : Option String
  style : Option String
  quality : Option Int
  steps : Option Int
  guidanceScale : Option Rat
  seed : Option Int
  width : Option Int
  height : Option Int
  imageCount : Option Int
deriving Repr

/-- Mongoose schema validation run by `Generation.create` / `save`
(src/src/models/Generation.js): the min/max bounds on the parameter fields,
the maxlength bound on the prompt, the `creditsUsed ≥ 1` bound and the
`modelUsed` enum.  A document violating them is rejected (creation throws and
no record is stored). -/
def genValid (g : Gen) : Prop :=
  g.prompt.length ≤ 1000 ∧
  g.modelUsed ∈ ["fal-ai", "fal-ai/flux-pro/kontext", "custom-model-1", "custom-model-2"] ∧
  1 ≤ g.creditsUsed ∧
  1 ≤ g.params.quality ∧ g.params.quality ≤ 4 ∧
  10 ≤ g.params.steps ∧ g.params.steps ≤ 50 ∧
  1 ≤ g.params.guidanceScale ∧ g.params.guidanceScale ≤ 20 ∧
  512 ≤ g.params.width ∧ g.params.width ≤ 2048 ∧
  512 ≤ g.params.height ∧ g.params.height ≤ 2048 ∧
  1 ≤ g.params.imageCount ∧ g.params.imageCount ≤ 4 ∧
  1 ≤ g.params.num_images ∧ g.params.num_images ≤ 4 ∧
  0 ≤ g.params.strength ∧ g.params.strength ≤ 1 ∧
  1 ≤ g.params.guidance_scale ∧ g.params.guidance_scale ≤ 20 ∧
  10 ≤ g.params.num_inference_steps ∧ g.params.num_inference_steps ≤ 100

instance (g : Gen) : Decidable (genValid g) := by
  unfold genValid
  infer_instance

/-- `createGeneration` (lines 575-681) restricted to its database effect.
In order: validate the prompt (required, non-empty after trimming; an invalid
prompt is rejected with no state change); compute the clamped image count and
required credits; reject a non-premium user whose balance is below the
requirement (lines 615-618); materialize the optional input image through the
artifact store; build and store the new record with `status = 'pending'` and
the defaulted parameter snapshot (lines 630-658).  Credits are not touched
here (lines 660-661).

`gid` is the id `Generation.create` assigns to the new record; it is always
fresh, modelled by the `(s.gens gid).isSome` guard.  The asynchronous
fire-and-forget `processGeneration` trigger (line 666) is a separate
operation of the lifecycle model.  The HTTP response and the request metadata
fields are out of scope. -/
def createGeneration (dl : DlEnv) (s : St) (uid : Nat) (req : CreateReq) (gid : Nat) : St :=
  match s.users uid with
  | none => s
  | some u =>
    let p := jsTrim (req.prompt.getD "")
    if p = "" then s
    else
      let numImages := clampImages (jsOrInt req.imageCount 1)
      let creditsRequired := numImages.toNat
      if !u.isPremiumActive && u.credits < creditsRequired then s
      else if (s.gens gid).isSome then s
      else
        let s3InputImageUrl :=
          match req.inputImageUrl with
          | none => none
          | some url => if url = "" then none else downloadAndUploadToS3 dl url
        let newGen : Gen :=
          { userId := uid
            originalImageUrl := s3InputImageUrl
            generatedImageUrls := []
            prompt := p
            modelUsed := "fal-ai/flux-pro/kontext"
            params :=
              { pprompt := some p
                negativePrompt := req.negativePrompt.getD ""
                style := jsOrStr req.style "photographic"
                quality := jsOrInt req.quality 2
                steps := jsOrInt req.steps 25
                guidanceScale := jsOrRat req.guidanceScale (mkRat 15 2)
                seed := req.seed
                width := jsOrInt req.width 1024
                height := jsOrInt req.height 1024
                imageCount := numImages
                num_images := numImages
                strength := (mkRat 4 5)
                guidance_scale := (mkRat 15 2)
                num_inference_steps := 50 }
            creditsUsed := creditsRequired
            status := .pending
            processingStartedAt := none
            completedAt := none
            failureReason := none
            processingTimeMs := none }
        if genValid newGen then updGen s gid newGen else s

/-- `retryGeneration` (lines 726-784) restricted to its database effect: load
the record scoped to the requesting user; only a failed record can be
retried; a non-premium user whose balance is below the record's
`creditsUsed` is refused (lines 746-749); otherwise reset status and the
mutable result fields to their pending-state values, backfilling
`parameters.prompt` from the record's prompt when it is falsy (lines
760-763), and save.  Credits are not touched.  The re-trigger of
`processGeneration` (line 771) is a separate operation. -/
def retryGeneration (s : St) (uid gid : Nat) : St :=
  match s.gens gid, s.users uid with
  | some g, some u =>
    if g.userId = uid then
      if g.status = .failed then
        if !u.isPremiumActive && u.credits < g.creditsUsed then s
        else
          let p := g.params
          let p' :=
            if p.pprompt.getD "" = "" ∧ g.prompt ≠ "" then
              { p with pprompt := some g.prompt }
            else p
          updGen s gid
            { g with
              status := .pending
              processingStartedAt := none
              completedAt := none
              failureReason := none
              processingTimeMs := none
              generatedImageUrls := []
              params := p' }
      else s
    else s
  | _, _ => s

/-- `cancelGeneration` (lines 786-821) restricted to its database effect:
load the record scoped to the requesting user; only pending or processing
records can be cancelled; mark the record failed with reason
`'Cancelled by user'` (line 808).  Credits were never deducted, so nothing is
refunded. -/
def cancelGeneration (s : St) (uid gid : Nat) (t : Nat) : St :=
  match s.gens gid with
  | none => s
  | some g =>
    if g.userId = uid then
      if g.status = .pending ∨ g.status = .processing then
        updGen s gid (failDoc g "Cancelled by user" t)
      else s
    else s

/-! ### The lifecycle as a transition system

The operations a client can drive on the generations store: creating a
record, the asynchronous processing run, cancelling and retrying.  Each
`process` op is one uninterfered run of `processGeneration` (the interleaved
cancel/process race is treated separately through the two phases). -/

/-- One operation of the generation lifecycle, carrying its external
environment. -/
inductive Op where
  | create (dl : DlEnv) (uid : Nat) (req : CreateReq) (gid : Nat)
  | process (env : ProcEnv) (gid : Nat)
  | cancel (uid gid : Nat) (t : Nat)
  | retry (uid gid : Nat)

/-- Apply one operation to the state. -/
def step (s : St) : Op → St
  | .create dl uid req gid => createGeneration dl s uid req gid
  | .process env gid => (processGeneration env s gid).1
  | .cancel uid gid t => cancelGeneration s uid gid t
  | .retry uid gid => retryGeneration s uid gid

/-- Apply a sequence of operations. -/
def run (s : St) : List Op → St
  | [] => s
  | op :: ops => run (step s op) ops

/-- The initial state: an arbitrary users collection and no generation
records. -/
def init (users : Nat → Option User) : St :=
  ⟨users, fun _ => none⟩

/-! ### Basic store lemmas -/

theorem updGen_users (s : St) (gid : Nat) (g : Gen) :
    (updGen s gid g).users = s.users := rfl

theorem updGen_gens_self (s : St) (gid : Nat) (g : Gen) :
    (updGen s gid g).gens gid = some g := by
  simp [updGen]

theorem updGen_gens_ne (s : St) (gid i : Nat) (g : Gen) (h : i ≠ gid) :
    (updGen s gid g).gens i = s.gens i := by
  simp [updGen, h]

theorem updUser_gens (s : St) (uid : Nat) (u : User) :
    (updUser s uid u).gens = s.gens := rfl

theorem updUser_users_self (s : St) (uid : Nat) (u : User) :
    (updUser s uid u).users uid = some u := by
  simp [updUser]

theorem updUser_users_ne (s : St) (uid i : Nat) (u : User) (h : i ≠ uid) :
    (updUser s uid u).users i = s.users i := by
  simp [updUser, h]

theorem failStored_users (s : St) (gid : Nat) (r : String) (t : Nat) :
    (failStored s gid r t).users = s.users := by
  unfold failStored
  split <;> rfl

theorem failStored_gens_self (s : St) (gid : Nat) (r : String) (t : Nat) (g : Gen)
    (h : s.gens gid = some g) :
    (failStored s gid r t).gens gid = some (failDoc g r t) := by
  unfold failStored
  rw [h]
  exact updGen_gens_self ..

theorem failStored_gens_ne (s : St) (gid i : Nat) (r : String) (t : Nat) (h : i ≠ gid) :
    (failStored s gid r t).gens i = s.gens i := by
  unfold failStored
  split
  · rfl
  · exact updGen_gens_ne _ _ _ _ h

/-! ### Lemmas about the provider retry loop -/

theorem callFalGo_calls_le (env : Nat → FalOutcome) (jit : Nat → Nat) (mr : Nat) :
    ∀ fuel k, (callFalGo env jit mr fuel k).calls ≤ fuel + 1 := by
  intro fuel
  induction fuel with
  | zero =>
    intro k
    cases henv : env k with
    | ok d => simp [callFalGo, henv]
    | err m =>
      by_cases hr : isRateLimitError m = true <;> simp [callFalGo, henv, hr]
  | succ fuel ih =>
    intro k
    cases henv : env k with
    | ok d => simp [callFalGo, henv]
    | err m =>
      by_cases hr : isRateLimitError m = true
      · by_cases hk : k < mr
        · have h := ih (k + 1)
          simp only [callFalGo, henv, hr, if_true, if_pos hk]
          omega
        · simp [callFalGo, henv, hr, hk]
      · simp [callFalGo, henv, hr]

theorem callFalGo_delays_calls (env : Nat → FalOutcome) (jit : Nat → Nat) (mr : Nat) :
    ∀ fuel k,
      (callFalGo env jit mr fuel k).delays.length + 1 = (callFalGo env jit mr fuel k).calls := by
  intro fuel
  induction fuel with
  | zero =>
    intro k
    cases henv : env k with
    | ok d => simp [callFalGo, henv]
    | err m =>
      by_cases hr : isRateLimitError m = true <;> simp [callFalGo, henv, hr]
  | succ fuel ih =>
    intro k
    cases henv : env k with
    | ok d => simp [callFalGo, henv]
    | err m =>
      by_cases hr : isRateLimitError m = true
      · by_cases hk : k < mr
        · have h := ih (k + 1)
          simp only [callFalGo, henv, hr, if_true, if_pos hk, List.length_cons]
          omega
        · simp [callFalGo, henv, hr, hk]
      · simp [callFalGo, henv, hr]

theorem callFalGo_delays_elem (env : Nat → FalOutcome) (jit : Nat → Nat) (mr : Nat) :
    ∀ fuel k i, i < (callFalGo env jit mr fuel k).delays.length →
      (callFalGo env jit mr fuel k).delays[i]? =
        some (2 ^ (k + i) * 1000 + jit (k + i)) := by
  intro fuel
  induction fuel with
  | zero =>
    intro k i h
    exfalso
    revert h
    cases henv : env k with
    | ok d => simp [callFalGo, henv]
    | err m =>
      by_cases hr : isRateLimitError m = true <;> simp [callFalGo, henv, hr]
  | succ fuel ih =>
    intro k i
    cases henv : env k with
    | ok d => simp [callFalGo, henv]
    | err m =>
      by_cases hr : isRateLimitError m = true
      · by_cases hk : k < mr
        · simp only [callFalGo, henv, hr, if_true, if_pos hk, List.length_cons]
          cases i with
          | zero => simp
          | succ i =>
            intro h
            have h' : i < (callFalGo env jit mr fuel (k + 1)).delays.length := by omega
            have hrec := ih (k + 1) i h'
            have harith : k + 1 + i = k + (i + 1) := by omega
            rw [harith] at hrec
            simpa using hrec
        · simp [callFalGo, henv, hr, hk]
      · simp [callFalGo, henv, hr]

theorem callFalGo_delays_get (env : Nat → FalOutcome) (jit : Nat → Nat)
    (mr fuel k i : Nat) (h : i < (callFalGo env jit mr fuel k).delays.length) :
    (callFalGo env jit mr fuel k).delays.get ⟨i, h⟩ =
      2 ^ (k + i) * 1000 + jit (k + i) := by
  have h2 := callFalGo_delays_elem env jit mr fuel k i h
  rw [List.getElem?_eq_getElem h] at h2
  simpa [List.get_eq_getElem] using h2

theorem callFalGo_retried_rate_limit (env : Nat → FalOutcome) (jit : Nat → Nat) (mr : Nat) :
    ∀ fuel k i, i < (callFalGo env jit mr fuel k).delays.length →
      ∃ m, env (k + i) = .err m ∧ isRateLimitError m = true := by
  intro fuel
  induction fuel with
  | zero =>
    intro k i h
    exfalso
    revert h
    cases henv : env k with
    | ok d => simp [callFalGo, henv]
    | err m =>
      by_cases hr : isRateLimitError m = true <;> simp [callFalGo, henv, hr]
  | succ fuel ih =>
    intro k i
    cases henv : env k with
    | ok d => simp [callFalGo, henv]
    | err m =>
      by_cases hr : isRateLimitError m = true
      · by_cases hk : k < mr
        · simp only [callFalGo, henv, hr, if_true, if_pos hk, List.length_cons]
          cases i with
          | zero => exact fun _ => ⟨m, by simpa using henv, hr⟩
          | succ i =>
            intro h
            have h' : i < (callFalGo env jit mr fuel (k + 1)).delays.length := by omega
            have hrec := ih (k + 1) i h'
            have harith : k + 1 + i = k + (i + 1) := by omega
            rw [harith] at hrec
            exact hrec
        · simp [callFalGo, henv, hr, hk]
      · simp [callFalGo, henv, hr]

theorem callFalGo_err_first (env : Nat → FalOutcome) (jit : Nat → Nat)
    (mr fuel k : Nat) (m : String) (henv : env k = .err m)
    (hrl : isRateLimitError m = false) :
    callFalGo env jit mr fuel k = ⟨1, [], .error (unavailableMsg m)⟩ := by
  cases fuel <;> simp [callFalGo, henv, hrl]

theorem callFalGo_all_rate_limit (env : Nat → FalOutcome) (jit : Nat → Nat) (mr : Nat) :
    ∀ fuel k, k + fuel = mr →
      (∀ i, i ≤ mr → ∃ m, env i = .err m ∧ isRateLimitError m = true) →
      (callFalGo env jit mr fuel k).calls = fuel + 1 ∧
        (callFalGo env jit mr fuel k).result = .error overloadedMsg := by
  intro fuel
  induction fuel with
  | zero =>
    intro k hk hall
    obtain ⟨m, hm, hr⟩ := hall k (by omega)
    simp [callFalGo, hm, hr]
  | succ fuel ih =>
    intro k hk hall
    obtain ⟨m, hm, hr⟩ := hall k (by omega)
    have hlt : k < mr := by omega
    have hrec := ih (k + 1) (by omega) hall
    simp only [callFalGo, hm, hr, if_pos hlt, if_pos rfl]
    constructor
    · simpa using hrec.1
    · simpa using hrec.2

/-- C6. The Provider Adapter `callFalAI` makes at most `maxRetries`
additional provider calls beyond the first; every retried attempt had failed
with a rate-limit-classified error; the backoff slept before retry `i` is at
least `2 ^ i * 1000` milliseconds and the successive backoffs are strictly
increasing (given jitter below 1000 ms, as `Math.random() * 1000` is); a
non-rate-limit error on the first attempt gives exactly one provider call and
the "service unavailable" error carrying the upstream message; rate-limit
errors on every attempt give `maxRetries + 1` calls and the distinct
"temporarily overloaded" error.  `processGeneration` uses the default
`maxRetries = 3`. -/
theorem c6_provider_retry_policy (env : Nat → FalOutcome) (jit : Nat → Nat)
    (maxRetries : Nat) (hjit : ∀ i, jit i < 1000) :
    (callFalAI env jit maxRetries).calls ≤ maxRetries + 1 ∧
    (callFalAI env jit maxRetries).delays.length + 1 = (callFalAI env jit maxRetries).calls ∧
    (∀ i, i < (callFalAI env jit maxRetries).delays.length →
      ∃ m, env i = .err m ∧ isRateLimitError m = true) ∧
    (∀ i (h : i < (callFalAI env jit maxRetries).delays.length),
      2 ^ i * 1000 ≤ (callFalAI env jit maxRetries).delays.get ⟨i, h⟩) ∧
    List.Chain' (· < ·) (callFalAI env jit maxRetries).delays ∧
    (∀ m, env 0 = .err m → isRateLimitError m = false →
      callFalAI env jit maxRetries = ⟨1, [], .error (unavailableMsg m)⟩) ∧
    ((∀ i, i ≤ maxRetries → ∃ m, env i = .err m ∧ isRateLimitError m = true) →
      (callFalAI env jit maxRetries).calls = maxRetries + 1 ∧
        (callFalAI env jit maxRetries).result = .error overloadedMsg) := by
  unfold callFalAI
  refine ⟨?_, ?_, ?_, ?_, ?_, ?_, ?_⟩
  · exact callFalGo_calls_le env jit maxRetries maxRetries 0
  · exact callFalGo_delays_calls env jit maxRetries maxRetries 0
  · intro i h
    have hrec := callFalGo_retried_rate_limit env jit maxRetries maxRetries 0 i h
    simpa using hrec
  · intro i h
    rw [callFalGo_delays_get env jit maxRetries maxRetries 0 i h]
    simp
  · rw [List.chain'_iff_get]
    intro i h
    have h1 : i < (callFalGo env jit maxRetries maxRetries 0).delays.length := by omega
    have h2 : i + 1 < (callFalGo env jit maxRetries maxRetries 0).delays.length := by omega
    have hcast1 : (callFalGo env jit maxRetries maxRetries 0).delays.get ⟨i, by omega⟩ =
        2 ^ (0 + i) * 1000 + jit (0 + i) :=
      callFalGo_delays_get env jit maxRetries maxRetries 0 i h1
    have hcast2 : (callFalGo env jit maxRetries maxRetries 0).delays.get ⟨i + 1, by omega⟩ =
        2 ^ (0 + (i + 1)) * 1000 + jit (0 + (i + 1)) :=
      callFalGo_delays_get env jit maxRetries maxRetries 0 (i + 1) h2
    rw [hcast1, hcast2]
    have hone : (1 : Nat) ≤ 2 ^ (0 + i) := Nat.one_le_two_pow
    have hsucc : (2 : Nat) ^ (0 + (i + 1)) = 2 ^ (0 + i) * 2 := pow_succ 2 (0 + i)
    have hj1 := hjit (0 + i)
    have hj2 := hjit (0 + (i + 1))
    omega
  · intro m h0 hrl
    exact callFalGo_err_first env jit maxRetries maxRetries 0 m h0 hrl
  · intro hall
    exact callFalGo_all_rate_limit env jit maxRetries maxRetries 0 (by omega) hall

/-- Witness for C6 at a concrete input: every provider attempt fails with a
rate-limit message and the jitter is the constant 400 < 1000; the adapter
makes exactly 4 calls with strictly increasing backoffs and surfaces the
overloaded error. -/
theorem c6_witness :
    (∀ i : Nat, (fun _ : Nat => 400) i < 1000) ∧
    ((callFalAI (fun _ => .err "rate limit") (fun _ : Nat => 400) 3).calls ≤ 3 + 1 ∧
     (callFalAI (fun _ => .err "rate limit") (fun _ : Nat => 400) 3).delays.length + 1 =
       (callFalAI (fun _ => .err "rate limit") (fun _ : Nat => 400) 3).calls ∧
     (∀ i, i < (callFalAI (fun _ => .err "rate limit") (fun _ : Nat => 400) 3).delays.length →
       ∃ m, (fun _ : Nat => FalOutcome.err "rate limit") i = .err m ∧ isRateLimitError m = true) ∧
     (∀ i (h : i < (callFalAI (fun _ => .err "rate limit") (fun _ : Nat => 400) 3).delays.length),
       2 ^ i * 1000 ≤
         (callFalAI (fun _ => .err "rate limit") (fun _ : Nat => 400) 3).delays.get ⟨i, h⟩) ∧
     List.Chain' (· < ·) (callFalAI (fun _ => .err "rate limit") (fun _ : Nat => 400) 3).delays ∧
     (∀ m, (fun _ : Nat => FalOutcome.err "rate limit") 0 = .err m → isRateLimitError m = false →
       callFalAI (fun _ => .err "rate limit") (fun _ : Nat => 400) 3 =
         ⟨1, [], .error (unavailableMsg m)⟩) ∧
     ((∀ i, i ≤ 3 → ∃ m, (fun _ : Nat => FalOutcome.err "rate limit") i = .err m ∧
         isRateLimitError m = true) →
       (callFalAI (fun _ => .err "rate limit") (fun _ : Nat => 400) 3).calls = 3 + 1 ∧
         (callFalAI (fun _ => .err "rate limit") (fun _ : Nat => 400) 3).result =
           .error overloadedMsg)) :=
  ⟨fun i => by
      show (400 : Nat) < 1000
      decide,
   c6_provider_retry_policy (fun _ => .err "rate limit") (fun _ : Nat => 400) 3
     (fun i => by
       show (400 : Nat) < 1000
       decide)⟩

/-! ### No-op guard of `processGeneration` -/

/-- Shared helper: `processGeneration` is a silent no-op when the record is
missing or not pending. -/
theorem processGeneration_noop (env : ProcEnv) (s : St) (gid : Nat)
    (h : s.gens gid = none ∨ ∃ g, s.gens gid = some g ∧ g.status ≠ .pending) :
    processGeneration env s gid = (s, 0) := by
  unfold processGeneration processPhase1
  rcases h with h | ⟨g, hg, hs⟩
  · rw [h]
  · rw [hg]
    simp [hs]

/-- C5. Invoking `process` on a missing record or on a record whose status is
not `pending` is a silent no-op: the state (every generation record and every
credit balance) is unchanged and zero provider calls are made. -/
theorem c5_process_not_pending_noop (env : ProcEnv) (s : St) (gid : Nat)
    (h : s.gens gid = none ∨ ∃ g, s.gens gid = some g ∧ g.status ≠ .pending) :
    processGeneration env s gid = (s, 0) :=
  processGeneration_noop env s gid h

/-- Witness for C5 at a concrete input: a store with one completed record;
processing it changes nothing and calls the provider zero times. -/
def gC5 : Gen :=
  { userId := 0
    originalImageUrl := none
    generatedImageUrls := ["s3://done.jpg"]
    prompt := "a dog"
    modelUsed := "fal-ai/flux-pro/kontext"
    params :=
      { pprompt := some "a dog"
        negativePrompt := ""
        style := "photographic"
        quality := 2
        steps := 25
        guidanceScale := (mkRat 15 2)
        seed := none
        width := 1024
        height := 1024
        imageCount := 1
        num_images := 1
        strength := (mkRat 4 5)
        guidance_scale := (mkRat 15 2)
        num_inference_steps := 50 }
    creditsUsed := 1
    status := .completed
    processingStartedAt := some 5
    completedAt := some 9
    failureReason := none
    processingTimeMs := some 4 }

/-- Concrete store for the C5 witness. -/
def sC5 : St :=
  ⟨fun i => if i = 0 then some ⟨7, false⟩ else none,
   fun i => if i = 0 then some gC5 else none⟩

/-- Concrete environment for the C5 witness. -/
def envC5 : ProcEnv :=
  { t1 := 1
    t2 := 2
    t3 := 3
    provider := fun _ => .ok ⟨some ["https://x.jpg"], none, none⟩
    jitter := fun _ => 0
    dl := ⟨fun _ => true, fun u => "s3://" ++ u⟩ }

theorem c5_witness :
    (sC5.gens 0 = none ∨ ∃ g, sC5.gens 0 = some g ∧ g.status ≠ .pending) ∧
    processGeneration envC5 sC5 0 = (sC5, 0) :=
  ⟨Or.inr ⟨gC5, rfl, by decide⟩,
   c5_process_not_pending_noop envC5 sC5 0 (Or.inr ⟨gC5, rfl, by decide⟩)⟩

/-! ### Path lemmas for `processGeneration` -/

theorem processPhase1_pending (s : St) (gid : Nat) (g : Gen) (t : Nat)
    (hg : s.gens gid = some g) (hp : g.status = .pending) :
    processPhase1 s gid t = some (updGen s gid (applyStart g t), applyStart g t) := by
  unfold processPhase1
  rw [hg]
  simp [hp]

theorem processGeneration_pending (env : ProcEnv) (s : St) (gid : Nat) (g : Gen)
    (hg : s.gens gid = some g) (hp : g.status = .pending) :
    processGeneration env s gid =
      processPhase2 env (updGen s gid (applyStart g env.t1)) gid (applyStart g env.t1) := by
  unfold processGeneration
  rw [processPhase1_pending s gid g env.t1 hg hp]

theorem processPhase2_err (env : ProcEnv) (s : St) (gid : Nat) (doc : Gen) (msg : String)
    (hfal : (callFalAI env.provider env.jitter 3).result = .error msg) :
    processPhase2 env s gid doc = (failStored s gid msg env.t3,
      (callFalAI env.provider env.jitter 3).calls) := by
  unfold processPhase2
  dsimp only
  rw [hfal]

theorem processPhase2_empty (env : ProcEnv) (s : St) (gid : Nat) (doc : Gen) (d : FalData)
    (hfal : (callFalAI env.provider env.jitter 3).result = .ok d)
    (hempty : extractUrls d = []) :
    processPhase2 env s gid doc =
      (failStored s gid "No images generated by FAL AI service" env.t3,
        (callFalAI env.provider env.jitter 3).calls) := by
  unfold processPhase2
  dsimp only
  rw [hfal]
  simp [hempty]

theorem processPhase2_success (env : ProcEnv) (s : St) (gid : Nat) (doc cur : Gen)
    (d : FalData)
    (hfal : (callFalAI env.provider env.jitter 3).result = .ok d)
    (hne : extractUrls d ≠ [])
    (hcur : s.gens gid = some cur) :
    (processPhase2 env s gid doc).1 =
      deductStage env (updGen s gid (completeWriteback cur doc
        ((extractUrls d).filterMap (downloadAndUploadToS3 env.dl)) env.t2)) gid doc := by
  unfold processPhase2
  dsimp only
  rw [hfal]
  simp only [if_neg hne, hcur]

theorem deductStage_missing_owner (env : ProcEnv) (s2 : St) (gid : Nat) (doc : Gen)
    (h : s2.users doc.userId = none) :
    deductStage env s2 gid doc = s2 := by
  unfold deductStage
  rw [h]

theorem deductStage_premium (env : ProcEnv) (s2 : St) (gid : Nat) (doc : Gen) (u : User)
    (h : s2.users doc.userId = some u) (hprem : u.isPremiumActive = true) :
    deductStage env s2 gid doc = s2 := by
  unfold deductStage
  rw [h]
  simp [hprem]

theorem deductStage_insufficient (env : ProcEnv) (s2 : St) (gid : Nat) (doc : Gen) (u : User)
    (h : s2.users doc.userId = some u) (hprem : u.isPremiumActive = false)
    (hins : u.credits < doc.creditsUsed) :
    deductStage env s2 gid doc = failStored s2 gid "Insufficient credits" env.t3 := by
  unfold deductStage
  rw [h]
  simp [hprem, hins]

theorem deductStage_deduct (env : ProcEnv) (s2 : St) (gid : Nat) (doc : Gen) (u : User)
    (h : s2.users doc.userId = some u) (hprem : u.isPremiumActive = false)
    (hok : ¬ u.credits < doc.creditsUsed) :
    deductStage env s2 gid doc =
      updUser s2 doc.userId { u with credits := u.credits - doc.creditsUsed } := by
  unfold deductStage
  rw [h]
  simp [hprem, hok]

/-! ### C1: what happens when the post-completion deduction fails -/

/-- C1 (amended).  When the post-completion credit deduction fails (the
non-premium owner's balance is below `creditsUsed`), the completed record
does NOT stand: the error is caught by the generic failure handler of
`processGeneration`, which reloads the record and marks it failed with
failureReason `'Insufficient credits'`.  The stored `generatedImageUrls`
(written by `complete`) survive, and no credit balance changes. -/
theorem c1_deduction_failure_marks_failed (env : ProcEnv) (s : St) (gid : Nat)
    (g : Gen) (u : User) (d : FalData)
    (hg : s.gens gid = some g) (hp : g.status = .pending)
    (hu : s.users g.userId = some u) (hprem : u.isPremiumActive = false)
    (hins : u.credits < g.creditsUsed)
    (hfal : (callFalAI env.provider env.jitter 3).result = .ok d)
    (hne : extractUrls d ≠ []) :
    (∃ g', ((processGeneration env s gid).1).gens gid = some g' ∧
      g'.status = .failed ∧
      g'.failureReason = some "Insufficient credits" ∧
      g'.generatedImageUrls = (extractUrls d).filterMap (downloadAndUploadToS3 env.dl)) ∧
    ((processGeneration env s gid).1).users = s.users := by
  rw [processGeneration_pending env s gid g hg hp]
  set doc := applyStart g env.t1 with hdoc
  set s1 := updGen s gid doc with hs1
  have hcur : s1.gens gid = some doc := updGen_gens_self ..
  rw [processPhase2_success env s1 gid doc doc d hfal hne hcur]
  set uploaded := (extractUrls d).filterMap (downloadAndUploadToS3 env.dl) with hup
  set comp := completeWriteback doc doc uploaded env.t2 with hcomp
  set s2 := updGen s1 gid comp with hs2
  have huid : doc.userId = g.userId := rfl
  have hu2 : s2.users doc.userId = some u := by
    rw [hs2, hs1, updGen_users, updGen_users, huid]
    exact hu
  have hins2 : u.credits < doc.creditsUsed := hins
  rw [deductStage_insufficient env s2 gid doc u hu2 hprem hins2]
  have hcomp2 : s2.gens gid = some comp := updGen_gens_self ..
  constructor
  · refine ⟨failDoc comp "Insufficient credits" env.t3, ?_, rfl, rfl, rfl⟩
    exact failStored_gens_self s2 gid "Insufficient credits" env.t3 comp hcomp2
  · rw [failStored_users, hs2, updGen_users, hs1, updGen_users]

/-- Concrete user for the C1 counterexample: zero credits, non-premium. -/
def uC1 : User := ⟨0, false⟩

/-- Concrete pending record for the C1 counterexample, reserving 1 credit. -/
def gC1 : Gen :=
  { userId := 0
    originalImageUrl := none
    generatedImageUrls := []
    prompt := "a cat"
    modelUsed := "fal-ai/flux-pro/kontext"
    params :=
      { pprompt := some "a cat"
        negativePrompt := ""
        style := "photographic"
        quality := 2
        steps := 25
        guidanceScale := (mkRat 15 2)
        seed := none
        width := 1024
        height := 1024
        imageCount := 1
        num_images := 1
        strength := (mkRat 4 5)
        guidance_scale := (mkRat 15 2)
        num_inference_steps := 50 }
    creditsUsed := 1
    status := .pending
    processingStartedAt := none
    completedAt := none
    failureReason := none
    processingTimeMs := none }

/-- Concrete store for the C1 counterexample. -/
def sC1 : St :=
  ⟨fun i => if i = 0 then some uC1 else none,
   fun i => if i = 0 then some gC1 else none⟩

/-- Concrete environment for the C1 counterexample: the provider succeeds
with one remote image, which materializes to S3. -/
def envC1 : ProcEnv :=
  { t1 := 10
    t2 := 20
    t3 := 21
    provider := fun _ => .ok ⟨some ["https://fal/img1.jpg"], none, none⟩
    jitter := fun _ => 0
    dl := ⟨fun _ => true, fun u => "s3://" ++ u⟩ }

/-- Concrete owner for the C3 witness: 5 credits, non-premium. -/
def uC3 : User := ⟨5, false⟩

/-- Concrete store for the C3 witness: the pending 1-credit record `gC1`
owned by `uC3`. -/
def sC3 : St :=
  ⟨fun i => if i = 0 then some uC3 else none,
   fun i => if i = 0 then some gC1 else none⟩

/-- C1 (counterexample).  The owner is non-premium with 0 credits and the
record reserves 1, so the post-completion deduction fails; contrary to the
claim the record does not remain `completed`: it ends `failed` with reason
`'Insufficient credits'` (its outputImageRefs do survive). -/
theorem c1_counterexample :
    ((processGeneration envC1 sC1 0).1.gens 0).map
        (fun g => (g.status, g.failureReason, g.generatedImageUrls)) =
      some (.failed, some "Insufficient credits", ["s3://https://fal/img1.jpg"]) := rfl

/-! ### Which operations touch the users collection -/

theorem createGeneration_users (dl : DlEnv) (s : St) (uid : Nat) (req : CreateReq)
    (gid : Nat) : (createGeneration dl s uid req gid).users = s.users := by
  unfold createGeneration
  cases h : s.users uid with
  | none => rfl
  | some u =>
    dsimp only
    split
    · rfl
    · split
      · rfl
      · split
        · rfl
        · split
          · rfl
          · rfl

theorem cancelGeneration_users (s : St) (uid gid t : Nat) :
    (cancelGeneration s uid gid t).users = s.users := by
  unfold cancelGeneration
  cases h : s.gens gid with
  | none => rfl
  | some g =>
    dsimp only
    split
    · split
      · rfl
      · rfl
    · rfl

theorem retryGeneration_users (s : St) (uid gid : Nat) :
    (retryGeneration s uid gid).users = s.users := by
  unfold retryGeneration
  cases hg : s.gens gid with
  | none => rfl
  | some g =>
    cases hu : s.users uid with
    | none => rfl
    | some u =>
      dsimp only
      split
      · split
        · split
          · rfl
          · rfl
        · rfl
      · rfl

/-! ### C3: the deduction discipline -/

/-- C3.  Credits move only on a successful pending → completed run of
`process`:
* `create`, `cancel` and `retry` never change any balance;
* a `process` run on a pending record owned by a premium account never
  changes any balance;
* a `process` run on a pending record owned by a non-premium account that
  ends with the record `completed` deducts exactly `creditsUsed` (the
  reserved amount) from the owner — once, with every other balance
  untouched — and can only happen when the balance covers it;
* a `process` run that does not end `completed` (provider failure, no
  images, or the deduction itself failing) changes no balance. -/
theorem c3_deduction_discipline (s : St) :
    (∀ dl uid req gid, (createGeneration dl s uid req gid).users = s.users) ∧
    (∀ uid gid t, (cancelGeneration s uid gid t).users = s.users) ∧
    (∀ uid gid, (retryGeneration s uid gid).users = s.users) ∧
    (∀ env gid g u, s.gens gid = some g → g.status = .pending →
      s.users g.userId = some u →
      ((u.isPremiumActive = true → ((processGeneration env s gid).1).users = s.users) ∧
       (u.isPremiumActive = false →
         ((∃ g', ((processGeneration env s gid).1).gens gid = some g' ∧
             g'.status = .completed) →
           g.creditsUsed ≤ u.credits ∧
           ((processGeneration env s gid).1).users g.userId =
             some { u with credits := u.credits - g.creditsUsed } ∧
           (∀ i, i ≠ g.userId → ((processGeneration env s gid).1).users i = s.users i)) ∧
         ((∀ g', ((processGeneration env s gid).1).gens gid = some g' →
             g'.status ≠ .completed) →
           ((processGeneration env s gid).1).users = s.users)))) := by
  refine ⟨fun dl uid req gid => createGeneration_users dl s uid req gid,
    fun uid gid t => cancelGeneration_users s uid gid t,
    fun uid gid => retryGeneration_users s uid gid, ?_⟩
  intro env gid g u hg hp hu
  rw [processGeneration_pending env s gid g hg hp]
  set doc := applyStart g env.t1 with hdoc
  set s1 := updGen s gid doc with hs1
  have hcur : s1.gens gid = some doc := updGen_gens_self ..
  have husers1 : s1.users = s.users := rfl
  have huid : doc.userId = g.userId := rfl
  have hcredu : doc.creditsUsed = g.creditsUsed := rfl
  cases hres : (callFalAI env.provider env.jitter 3).result with
  | error msg =>
    rw [processPhase2_err env s1 gid doc msg hres]
    dsimp only
    have hrec : (failStored s1 gid msg env.t3).gens gid =
        some (failDoc doc msg env.t3) :=
      failStored_gens_self s1 gid msg env.t3 doc hcur
    have husers : (failStored s1 gid msg env.t3).users = s.users := by
      rw [failStored_users]
      exact husers1
    refine ⟨fun _ => husers, fun _ => ⟨?_, fun _ => husers⟩⟩
    rintro ⟨g', hg', hst⟩
    rw [hrec] at hg'
    cases hg'
    exact absurd hst (by simp [failDoc])
  | ok d =>
    by_cases hurls : extractUrls d = []
    · rw [processPhase2_empty env s1 gid doc d hres hurls]
      dsimp only
      have hrec : (failStored s1 gid "No images generated by FAL AI service" env.t3).gens gid =
          some (failDoc doc "No images generated by FAL AI service" env.t3) :=
        failStored_gens_self s1 gid _ env.t3 doc hcur
      have husers : (failStored s1 gid "No images generated by FAL AI service" env.t3).users =
          s.users := by
        rw [failStored_users]
        exact husers1
      refine ⟨fun _ => husers, fun _ => ⟨?_, fun _ => husers⟩⟩
      rintro ⟨g', hg', hst⟩
      rw [hrec] at hg'
      cases hg'
      exact absurd hst (by simp [failDoc])
    · rw [processPhase2_success env s1 gid doc doc d hres hurls hcur]
      set uploaded := (extractUrls d).filterMap (downloadAndUploadToS3 env.dl) with hupl
      set comp := completeWriteback doc doc uploaded env.t2 with hcomp
      set s2 := updGen s1 gid comp with hs2
      have hu2 : s2.users doc.userId = some u := by
        rw [hs2, updGen_users, husers1, huid]
        exact hu
      have hcomp2 : s2.gens gid = some comp := updGen_gens_self ..
      have hs2users : s2.users = s.users := by
        rw [hs2, updGen_users, husers1]
      by_cases hprem : u.isPremiumActive = true
      · rw [deductStage_premium env s2 gid doc u hu2 hprem]
        refine ⟨fun _ => hs2users, fun hfalse => ?_⟩
        rw [hfalse] at hprem
        cases hprem
      · have hprem2 : u.isPremiumActive = false := by
          cases hb : u.isPremiumActive
          · rfl
          · exact absurd hb hprem
        by_cases hins : u.credits < doc.creditsUsed
        · rw [deductStage_insufficient env s2 gid doc u hu2 hprem2 hins]
          have hrec : (failStored s2 gid "Insufficient credits" env.t3).gens gid =
              some (failDoc comp "Insufficient credits" env.t3) :=
            failStored_gens_self s2 gid _ env.t3 comp hcomp2
          have husers : (failStored s2 gid "Insufficient credits" env.t3).users = s.users := by
            rw [failStored_users, hs2users]
          refine ⟨fun hb => husers, fun _ => ⟨?_, fun _ => husers⟩⟩
          rintro ⟨g', hg', hst⟩
          rw [hrec] at hg'
          cases hg'
          exact absurd hst (by simp [failDoc])
        · rw [deductStage_deduct env s2 gid doc u hu2 hprem2 hins]
          have hle : g.creditsUsed ≤ u.credits := by
            rw [hcredu] at hins
            omega
          refine ⟨fun hb => ?_, fun _ => ⟨fun _ => ⟨hle, ?_, ?_⟩, fun hnone => ?_⟩⟩
          · rw [hb] at hprem2
            cases hprem2
          · rw [huid, hcredu] at *
            rw [updUser_users_self]
          · intro i hi
            rw [huid] at *
            rw [updUser_users_ne _ _ _ _ hi, hs2users]
          · exfalso
            have hrec : (updUser s2 doc.userId
                { u with credits := u.credits - doc.creditsUsed }).gens gid = some comp := by
              rw [updUser_gens]
              exact hcomp2
            exact hnone comp hrec (by rw [hcomp]; rfl)

/-! ### C4: cancellation versus an in-flight run -/

theorem cancelGeneration_applies (s : St) (uid gid t : Nat) (g : Gen)
    (hg : s.gens gid = some g) (hown : g.userId = uid)
    (hst : g.status = .pending ∨ g.status = .processing) :
    cancelGeneration s uid gid t = updGen s gid (failDoc g "Cancelled by user" t) := by
  unfold cancelGeneration
  rw [hg]
  simp [hown, hst]

/-- C4 (amended).  A cancel that lands while the record is still `pending`
is final: the later `process` invocation hits the entry guard and is a
no-op, so the record stays failed.  But `process` has no write-back guard:
when the cancel lands after an in-flight invocation has already moved the
record to `processing`, the invocation's completion write-back overwrites
the cancellation — on provider/store success (and a premium owner or a
covered balance) the record ends `completed`, not failed, retaining the
stale `failureReason = 'Cancelled by user'` that the cancel wrote. -/
theorem c4_cancel_overwrite :
    (∀ env (s : St) gid g, s.gens gid = some g → g.status = .failed →
      processGeneration env s gid = (s, 0)) ∧
    (∀ env (s : St) gid g u (tc : Nat) d,
      s.gens gid = some g → g.status = .pending →
      s.users g.userId = some u →
      (u.isPremiumActive = true ∨ g.creditsUsed ≤ u.credits) →
      (callFalAI env.provider env.jitter 3).result = .ok d →
      extractUrls d ≠ [] →
      ∀ pr, processPhase1 s gid env.t1 = some pr →
        ∃ g', ((processPhase2 env (cancelGeneration pr.1 g.userId gid tc) gid pr.2).1).gens gid
            = some g' ∧ g'.status = .completed ∧
            g'.failureReason = some "Cancelled by user") := by
  constructor
  · intro env s gid g hg hf
    exact processGeneration_noop env s gid (Or.inr ⟨g, hg, by simp [hf]⟩)
  · intro env s gid g u tc d hg hp hu hced hres hurls pr hpr
    rw [processPhase1_pending s gid g env.t1 hg hp] at hpr
    injection hpr with hpr
    subst hpr
    dsimp only
    set doc := applyStart g env.t1 with hdoc
    set s1 := updGen s gid doc with hs1
    have hcur : s1.gens gid = some doc := updGen_gens_self ..
    have hproc : doc.status = .pending ∨ doc.status = .processing := Or.inr rfl
    rw [cancelGeneration_applies s1 g.userId gid tc doc hcur rfl hproc]
    set cg := failDoc doc "Cancelled by user" tc with hcg
    set s2 := updGen s1 gid cg with hs2
    have hcur2 : s2.gens gid = some cg := updGen_gens_self ..
    rw [processPhase2_success env s2 gid doc cg d hres hurls hcur2]
    set uploaded := (extractUrls d).filterMap (downloadAndUploadToS3 env.dl) with hupl
    set comp := completeWriteback cg doc uploaded env.t2 with hcomp
    set s3 := updGen s2 gid comp with hs3
    have hu3 : s3.users doc.userId = some u := by
      rw [hs3, updGen_users, hs2, updGen_users, hs1, updGen_users]
      exact hu
    have hcomp3 : s3.gens gid = some comp := updGen_gens_self ..
    have hfr : comp.failureReason = some "Cancelled by user" := rfl
    by_cases hprem : u.isPremiumActive = true
    · rw [deductStage_premium env s3 gid doc u hu3 hprem]
      exact ⟨comp, hcomp3, rfl, hfr⟩
    · have hprem2 : u.isPremiumActive = false := by
        cases hb : u.isPremiumActive
        · rfl
        · exact absurd hb hprem
      have hle : g.creditsUsed ≤ u.credits := by
        rcases hced with hced | hced
        · exact absurd hced hprem
        · exact hced
      have hok : ¬ u.credits < doc.creditsUsed := by
        have : doc.creditsUsed = g.creditsUsed := rfl
        omega
      rw [deductStage_deduct env s3 gid doc u hu3 hprem2 hok]
      refine ⟨comp, ?_, rfl, hfr⟩
      rw [updUser_gens]
      exact hcomp3

/-! ### C2: the relation between `status` and `outputImageRefs` on reachable
records -/

/-- The record invariant that actually holds on every reachable record:
pending and processing records have no outputs; failed records have no
outputs unless they were failed by the post-completion deduction error
(failureReason `'Insufficient credits'`), which leaves the completed outputs
in place.  Completed records carry the successfully materialized references,
which can be zero when every materialization returned unavailable. -/
def recInv (g : Gen) : Prop :=
  (g.status = .pending → g.generatedImageUrls = []) ∧
  (g.status = .processing → g.generatedImageUrls = []) ∧
  (g.status = .failed →
    g.generatedImageUrls = [] ∨ g.failureReason = some "Insufficient credits")

/-- All stored records satisfy the record invariant. -/
def stInv (s : St) : Prop :=
  ∀ gid g, s.gens gid = some g → recInv g

theorem stInv_updGen (s : St) (gid : Nat) (g : Gen) (hs : stInv s) (hg : recInv g) :
    stInv (updGen s gid g) := by
  intro i g' h
  by_cases hi : i = gid
  · subst hi
    rw [updGen_gens_self] at h
    injection h with h
    subst h
    exact hg
  · rw [updGen_gens_ne _ _ _ _ hi] at h
    exact hs i g' h

theorem stInv_updUser (s : St) (uid : Nat) (u : User) (hs : stInv s) :
    stInv (updUser s uid u) := by
  intro i g h
  rw [updUser_gens] at h
  exact hs i g h

theorem recInv_mk (g : Gen)
    (h1 : g.status = .pending → g.generatedImageUrls = [])
    (h2 : g.status = .processing → g.generatedImageUrls = [])
    (h3 : g.status = .failed →
      g.generatedImageUrls = [] ∨ g.failureReason = some "Insufficient credits") :
    recInv g := by
  unfold recInv
  exact ⟨h1, h2, h3⟩

theorem recInv_status_pending (g : Gen) (h : recInv g) (hp : g.status = .pending) :
    g.generatedImageUrls = [] := by
  unfold recInv at h
  exact h.1 hp

theorem recInv_status_processing (g : Gen) (h : recInv g) (hp : g.status = .processing) :
    g.generatedImageUrls = [] := by
  unfold recInv at h
  exact h.2.1 hp

theorem recInv_failDoc (g : Gen) (r : String) (t : Nat)
    (h : g.generatedImageUrls = [] ∨ r = "Insufficient credits") :
    recInv (failDoc g r t) := by
  refine recInv_mk _ (fun h' => nomatch h') (fun h' => nomatch h') (fun _ => ?_)
  rcases h with h | h
  · exact Or.inl h
  · exact Or.inr (by subst h; rfl)

theorem stInv_failStored (s : St) (gid : Nat) (r : String) (t : Nat) (hs : stInv s)
    (hr : ∀ g, s.gens gid = some g →
      (g.generatedImageUrls = [] ∨ r = "Insufficient credits")) :
    stInv (failStored s gid r t) := by
  unfold failStored
  cases hg : s.gens gid with
  | none => exact hs
  | some g => exact stInv_updGen _ _ _ hs (recInv_failDoc g r t (hr g hg))

theorem recInv_completeWriteback (stored doc : Gen) (urls : List String) (t : Nat) :
    recInv (completeWriteback stored doc urls t) :=
  recInv_mk _ (fun h => nomatch h) (fun h => nomatch h) (fun h => nomatch h)

theorem processPhase1_some (s : St) (gid t : Nat) (pr : St × Gen)
    (h : processPhase1 s gid t = some pr) :
    ∃ g, s.gens gid = some g ∧ g.status = .pending ∧
      pr = (updGen s gid (applyStart g t), applyStart g t) := by
  unfold processPhase1 at h
  cases hg : s.gens gid with
  | none =>
    rw [hg] at h
    cases h
  | some g =>
    rw [hg] at h
    dsimp only at h
    by_cases hp : g.status = .pending
    · rw [if_pos hp] at h
      injection h with h
      exact ⟨g, rfl, hp, h.symm⟩
    · rw [if_neg hp] at h
      cases h

theorem stInv_create (dl : DlEnv) (s : St) (uid : Nat) (req : CreateReq) (gid : Nat)
    (hs : stInv s) : stInv (createGeneration dl s uid req gid) := by
  unfold createGeneration
  cases hu : s.users uid with
  | none => exact hs
  | some u =>
    dsimp only
    split
    · exact hs
    · split
      · exact hs
      · split
        · exact hs
        · split
          · exact stInv_updGen _ _ _ hs
              (recInv_mk _ (fun _ => rfl) (fun h => nomatch h) (fun h => nomatch h))
          · exact hs

theorem stInv_cancel (s : St) (uid gid t : Nat) (hs : stInv s) :
    stInv (cancelGeneration s uid gid t) := by
  unfold cancelGeneration
  cases hg : s.gens gid with
  | none => exact hs
  | some g =>
    dsimp only
    split
    · split
      · rename_i hst
        have hurls : g.generatedImageUrls = [] := by
          rcases hst with hst | hst
          · exact recInv_status_pending g (hs gid g hg) hst
          · exact recInv_status_processing g (hs gid g hg) hst
        exact stInv_updGen _ _ _ hs (recInv_failDoc g _ t (Or.inl hurls))
      · exact hs
    · exact hs

theorem stInv_retry (s : St) (uid gid : Nat) (hs : stInv s) :
    stInv (retryGeneration s uid gid) := by
  unfold retryGeneration
  cases hg : s.gens gid with
  | none => exact hs
  | some g =>
    cases hu : s.users uid with
    | none => exact hs
    | some u =>
      dsimp only
      split
      · split
        · split
          · exact hs
          · exact stInv_updGen _ _ _ hs
              (recInv_mk _ (fun _ => rfl) (fun h => nomatch h) (fun h => nomatch h))
        · exact hs
      · exact hs

theorem stInv_process (env : ProcEnv) (s : St) (gid : Nat) (hs : stInv s) :
    stInv ((processGeneration env s gid).1) := by
  cases hph : processPhase1 s gid env.t1 with
  | none =>
    unfold processGeneration
    rw [hph]
    exact hs
  | some pr =>
    obtain ⟨g, hg, hp, hpr⟩ := processPhase1_some s gid env.t1 pr hph
    unfold processGeneration
    rw [hph, hpr]
    dsimp only
    set doc := applyStart g env.t1 with hdoc
    set s1 := updGen s gid doc with hs1
    have hcur : s1.gens gid = some doc := updGen_gens_self ..
    have hgurls : g.generatedImageUrls = [] := recInv_status_pending g (hs gid g hg) hp
    have hdocinv : recInv doc :=
      recInv_mk _ (fun h => nomatch h) (fun _ => hgurls) (fun h => nomatch h)
    have hs1inv : stInv s1 := stInv_updGen _ _ _ hs hdocinv
    cases hres : (callFalAI env.provider env.jitter 3).result with
    | error msg =>
      rw [processPhase2_err env s1 gid doc msg hres]
      dsimp only
      refine stInv_failStored s1 gid msg env.t3 hs1inv ?_
      intro g' hg'
      rw [hcur] at hg'
      injection hg' with hg'
      subst hg'
      exact Or.inl hgurls
    | ok d =>
      by_cases hurls : extractUrls d = []
      · rw [processPhase2_empty env s1 gid doc d hres hurls]
        dsimp only
        refine stInv_failStored s1 gid _ env.t3 hs1inv ?_
        intro g' hg'
        rw [hcur] at hg'
        injection hg' with hg'
        subst hg'
        exact Or.inl hgurls
      · rw [processPhase2_success env s1 gid doc doc d hres hurls hcur]
        set comp := completeWriteback doc doc
          ((extractUrls d).filterMap (downloadAndUploadToS3 env.dl)) env.t2 with hcomp
        set s2 := updGen s1 gid comp with hs2
        have hs2inv : stInv s2 := stInv_updGen _ _ _ hs1inv (recInv_completeWriteback ..)
        unfold deductStage
        cases hu : s2.users doc.userId with
        | none => exact hs2inv
        | some u =>
          dsimp only
          split
          · exact hs2inv
          · split
            · exact stInv_failStored s2 gid _ env.t3 hs2inv (fun g' _ => Or.inr rfl)
            · exact stInv_updUser _ _ _ hs2inv

theorem stInv_step (s : St) (op : Op) (hs : stInv s) : stInv (step s op) := by
  cases op with
  | create dl uid req gid => exact stInv_create dl s uid req gid hs
  | process env gid => exact stInv_process env s gid hs
  | cancel uid gid t => exact stInv_cancel s uid gid t hs
  | retry uid gid => exact stInv_retry s uid gid hs

theorem stInv_run (s : St) (ops : List Op) (hs : stInv s) : stInv (run s ops) := by
  induction ops generalizing s with
  | nil => exact hs
  | cons op ops ih => exact ih (step s op) (stInv_step s op hs)

theorem stInv_init (users : Nat → Option User) : stInv (init users) := by
  intro gid g h
  cases h

/-- C2 (amended).  On every generation record reachable from an empty store
by any sequence of create / process / cancel / retry: pending and processing
records have no outputs, and failed records have no outputs unless failed by
the post-completion deduction error (failureReason `'Insufficient credits'`),
which keeps the completed outputs.  The biconditional of the original claim
fails in both directions: a completed record has zero outputs when every
materialization returned unavailable, and a deduction-failure record is
failed with outputs intact. -/
theorem c2_output_refs_invariant (users : Nat → Option User) (ops : List Op)
    (gid : Nat) (g : Gen) (h : (run (init users) ops).gens gid = some g) :
    (g.status = .pending → g.generatedImageUrls = []) ∧
    (g.status = .processing → g.generatedImageUrls = []) ∧
    (g.status = .failed →
      g.generatedImageUrls = [] ∨ g.failureReason = some "Insufficient credits") := by
  have hinv := stInv_run (init users) ops (stInv_init users) gid g h
  unfold recInv at hinv
  exact hinv

/-- Users collection for the C2 counterexample: one non-premium user with 5
credits. -/
def usersC2 : Nat → Option User := fun i => if i = 0 then some ⟨5, false⟩ else none

/-- Creation request for the C2 counterexample. -/
def reqC2 : CreateReq :=
  { inputImageUrl := none
    prompt := some "a scenic mountain"
    negativePrompt := none
    style := none
    quality := none
    steps := none
    guidanceScale := none
    seed := none
    width := none
    height := none
    imageCount := some 1 }

/-- Store oracle for the C2 counterexample (never consulted for `file://`
references). -/
def dlC2 : DlEnv := ⟨fun _ => true, fun u => "s3://" ++ u⟩

/-- Processing environment for the C2 counterexample: the provider succeeds
but returns a single local-scheme (`file://`) reference, which the artifact
store cannot materialize. -/
def envC2 : ProcEnv :=
  { t1 := 1
    t2 := 2
    t3 := 3
    provider := fun _ => .ok ⟨some ["file://local/img.png"], none, none⟩
    jitter := fun _ => 0
    dl := dlC2 }

/-- C2 (counterexample).  A record reachable by create-then-process ends in
status `completed` with an empty `outputImageRefs`: the provider returned one
`file://` reference, its materialization returned unavailable and was
silently dropped, and `complete([])` was persisted — refuting
`outputImageRefs non-empty iff status = completed`. -/
theorem c2_counterexample :
    ((run (init usersC2) [Op.create dlC2 0 reqC2 0, Op.process envC2 0]).gens 0).map
        (fun g => (g.status, g.generatedImageUrls)) =
      some (.completed, ([] : List String)) := rfl

/-- The record created by the C2 witness operation sequence. -/
def gC2 : Gen :=
  { userId := 0
    originalImageUrl := none
    generatedImageUrls := []
    prompt := "a scenic mountain"
    modelUsed := "fal-ai/flux-pro/kontext"
    params :=
      { pprompt := some "a scenic mountain"
        negativePrompt := ""
        style := "photographic"
        quality := 2
        steps := 25
        guidanceScale := (mkRat 15 2)
        seed := none
        width := 1024
        height := 1024
        imageCount := 1
        num_images := 1
        strength := (mkRat 4 5)
        guidance_scale := (mkRat 15 2)
        num_inference_steps := 50 }
    creditsUsed := 1
    status := .pending
    processingStartedAt := none
    completedAt := none
    failureReason := none
    processingTimeMs := none }

/-- Witness for the amended C2 on a concrete reachable state: after a single
create, the stored record is pending and the invariant (instantiated by the
theorem) holds of it. -/
theorem c2_witness :
    ((run (init usersC2) [Op.create dlC2 0 reqC2 0]).gens 0 = some gC2) ∧
    ((gC2.status = .pending → gC2.generatedImageUrls = []) ∧
     (gC2.status = .processing → gC2.generatedImageUrls = []) ∧
     (gC2.status = .failed →
       gC2.generatedImageUrls = [] ∨ gC2.failureReason = some "Insufficient credits")) :=
  ⟨rfl, c2_output_refs_invariant usersC2 [Op.create dlC2 0 reqC2 0] 0 gC2 rfl⟩

/-- Concrete premium owner for the C4 counterexample. -/
def uC4 : User := ⟨3, true⟩

/-- Concrete store for the C4 counterexample: the pending record `gC1` owned
by the premium user `uC4`. -/
def sC4 : St :=
  ⟨fun i => if i = 0 then some uC4 else none,
   fun i => if i = 0 then some gC1 else none⟩

/-- Concrete environment for the C4 counterexample. -/
def envC4 : ProcEnv :=
  { t1 := 10
    t2 := 30
    t3 := 31
    provider := fun _ => .ok ⟨some ["https://img"], none, none⟩
    jitter := fun _ => 0
    dl := ⟨fun _ => true, fun u => "s3://" ++ u⟩ }

/-- C4 (counterexample).  The in-flight invocation passes the entry guard
(record pending → processing); the user then cancels, moving the record to
failed with reason 'Cancelled by user'; when the in-flight run finishes, its
write-back sets the record to `completed` — the late-arriving provider
result is NOT discarded and the record does not stay failed, contrary to the
claim. -/
theorem c4_counterexample :
    ((processPhase1 sC4 0 10).map (fun pr =>
      (((processPhase2 envC4 (cancelGeneration pr.1 0 0 15) 0 pr.2).1).gens 0).map
        (fun g => (g.status, g.failureReason)))) =
      some (some (.completed, some "Cancelled by user")) := rfl

/-- The snapshot document of the C4 witness run. -/
def docC4 : Gen := applyStart gC1 10

/-- The store after the C4 witness run's entry phase. -/
def s1C4 : St := updGen sC4 0 docC4

/-- A cancelled (failed) record for part one of the C4 witness. -/
def gC4f : Gen := failDoc gC1 "Cancelled by user" 8

/-- Store holding the already-cancelled record for part one of the C4
witness. -/
def sC4f : St :=
  ⟨fun i => if i = 0 then some uC4 else none,
   fun i => if i = 0 then some gC4f else none⟩

/-- Witness for the amended C4: (i) processing an already-cancelled (failed)
record is a no-op; (ii) in the interleaved run on the concrete state, the
record ends completed with the stale cancellation reason. -/
theorem c4_witness :
    (sC4f.gens 0 = some gC4f ∧ gC4f.status = .failed ∧
      processGeneration envC4 sC4f 0 = (sC4f, 0)) ∧
    (sC4.gens 0 = some gC1 ∧ gC1.status = .pending ∧
      sC4.users gC1.userId = some uC4 ∧ uC4.isPremiumActive = true ∧
      (callFalAI envC4.provider envC4.jitter 3).result =
        .ok ⟨some ["https://img"], none, none⟩ ∧
      processPhase1 sC4 0 envC4.t1 = some (s1C4, docC4) ∧
      (∃ g', ((processPhase2 envC4 (cancelGeneration s1C4 gC1.userId 0 15) 0 docC4).1).gens 0
          = some g' ∧ g'.status = .completed ∧
          g'.failureReason = some "Cancelled by user")) := by
  constructor
  · exact ⟨rfl, rfl, c4_cancel_overwrite.1 envC4 sC4f 0 gC4f rfl rfl⟩
  · refine ⟨rfl, rfl, rfl, rfl, rfl, rfl, ?_⟩
    exact c4_cancel_overwrite.2 envC4 sC4 0 gC1 uC4 15
      ⟨some ["https://img"], none, none⟩ rfl rfl rfl (Or.inl rfl) rfl (by decide)
      (s1C4, docC4) rfl

/-! ### C7: immutability of `creditsUsed` -/

theorem processGeneration_gens_other (env : ProcEnv) (s : St) (gid gid' : Nat)
    (hne : gid' ≠ gid) :
    ((processGeneration env s gid).1).gens gid' = s.gens gid' := by
  cases hph : processPhase1 s gid env.t1 with
  | none =>
    unfold processGeneration
    rw [hph]
  | some pr =>
    obtain ⟨gp, hgp, hpend, hpr⟩ := processPhase1_some s gid env.t1 pr hph
    unfold processGeneration
    rw [hph, hpr]
    dsimp only
    set doc := applyStart gp env.t1 with hdoc
    set s1 := updGen s gid doc with hs1
    have hcur : s1.gens gid = some doc := updGen_gens_self ..
    have hs1other : s1.gens gid' = s.gens gid' := updGen_gens_ne _ _ _ _ hne
    cases hres : (callFalAI env.provider env.jitter 3).result with
    | error msg =>
      rw [processPhase2_err env s1 gid doc msg hres]
      dsimp only
      rw [failStored_gens_ne _ _ _ _ _ hne]
      exact hs1other
    | ok d =>
      by_cases hurls : extractUrls d = []
      · rw [processPhase2_empty env s1 gid doc d hres hurls]
        dsimp only
        rw [failStored_gens_ne _ _ _ _ _ hne]
        exact hs1other
      · rw [processPhase2_success env s1 gid doc doc d hres hurls hcur]
        set comp := completeWriteback doc doc
          ((extractUrls d).filterMap (downloadAndUploadToS3 env.dl)) env.t2 with hcomp
        set s2 := updGen s1 gid comp with hs2
        have hs2other : s2.gens gid' = s.gens gid' := by
          rw [hs2, updGen_gens_ne _ _ _ _ hne]
          exact hs1other
        unfold deductStage
        cases hu : s2.users doc.userId with
        | none => exact hs2other
        | some u =>
          dsimp only
          split
          · exact hs2other
          · split
            · rw [failStored_gens_ne _ _ _ _ _ hne]
              exact hs2other
            · rw [updUser_gens]
              exact hs2other

theorem processGeneration_gens_self_credits (env : ProcEnv) (s : St) (gid : Nat)
    (g : Gen) (hg : s.gens gid = some g) :
    ∃ g', ((processGeneration env s gid).1).gens gid = some g' ∧
      g'.creditsUsed = g.creditsUsed := by
  cases hph : processPhase1 s gid env.t1 with
  | none =>
    unfold processGeneration
    rw [hph]
    exact ⟨g, hg, rfl⟩
  | some pr =>
    obtain ⟨gp, hgp, hpend, hpr⟩ := processPhase1_some s gid env.t1 pr hph
    have hggp : g = gp := by
      rw [hg] at hgp
      exact Option.some.inj hgp.symm |>.symm
    subst hggp
    unfold processGeneration
    rw [hph, hpr]
    dsimp only
    set doc := applyStart g env.t1 with hdoc
    set s1 := updGen s gid doc with hs1
    have hcur : s1.gens gid = some doc := updGen_gens_self ..
    cases hres : (callFalAI env.provider env.jitter 3).result with
    | error msg =>
      rw [processPhase2_err env s1 gid doc msg hres]
      dsimp only
      exact ⟨failDoc doc msg env.t3,
        failStored_gens_self s1 gid msg env.t3 doc hcur, rfl⟩
    | ok d =>
      by_cases hurls : extractUrls d = []
      · rw [processPhase2_empty env s1 gid doc d hres hurls]
        dsimp only
        exact ⟨failDoc doc "No images generated by FAL AI service" env.t3,
          failStored_gens_self s1 gid _ env.t3 doc hcur, rfl⟩
      · rw [processPhase2_success env s1 gid doc doc d hres hurls hcur]
        set comp := completeWriteback doc doc
          ((extractUrls d).filterMap (downloadAndUploadToS3 env.dl)) env.t2 with hcomp
        set s2 := updGen s1 gid comp with hs2
        have hcomp2 : s2.gens gid = some comp := updGen_gens_self ..
        unfold deductStage
        cases hu : s2.users doc.userId with
        | none => exact ⟨comp, hcomp2, rfl⟩
        | some u =>
          dsimp only
          split
          · exact ⟨comp, hcomp2, rfl⟩
          · split
            · exact ⟨failDoc comp "Insufficient credits" env.t3,
                failStored_gens_self s2 gid _ env.t3 comp hcomp2, rfl⟩
            · refine ⟨comp, ?_, rfl⟩
              rw [updUser_gens]
              exact hcomp2

theorem cancelGeneration_preserves_credits (s : St) (uid gid t gid' : Nat) (g : Gen)
    (hg : s.gens gid' = some g) :
    ∃ g', (cancelGeneration s uid gid t).gens gid' = some g' ∧
      g'.creditsUsed = g.creditsUsed := by
  unfold cancelGeneration
  cases hc : s.gens gid with
  | none => exact ⟨g, hg, rfl⟩
  | some gc =>
    dsimp only
    split
    · split
      · by_cases hi : gid' = gid
        · subst hi
          rw [hc] at hg
          injection hg with hg
          subst hg
          exact ⟨failDoc gc "Cancelled by user" t, updGen_gens_self .., rfl⟩
        · refine ⟨g, ?_, rfl⟩
          rw [updGen_gens_ne _ _ _ _ hi]
          exact hg
      · exact ⟨g, hg, rfl⟩
    · exact ⟨g, hg, rfl⟩

theorem retryGeneration_preserves_credits (s : St) (uid gid gid' : Nat) (g : Gen)
    (hg : s.gens gid' = some g) :
    ∃ g', (retryGeneration s uid gid).gens gid' = some g' ∧
      g'.creditsUsed = g.creditsUsed := by
  unfold retryGeneration
  cases hc : s.gens gid with
  | none => exact ⟨g, hg, rfl⟩
  | some gc =>
    cases hu : s.users uid with
    | none => exact ⟨g, hg, rfl⟩
    | some u =>
      dsimp only
      split
      · split
        · split
          · exact ⟨g, hg, rfl⟩
          · by_cases hi : gid' = gid
            · subst hi
              rw [hc] at hg
              injection hg with hg
              subst hg
              exact ⟨_, updGen_gens_self .., rfl⟩
            · refine ⟨g, ?_, rfl⟩
              rw [updGen_gens_ne _ _ _ _ hi]
              exact hg
        · exact ⟨g, hg, rfl⟩
      · exact ⟨g, hg, rfl⟩

theorem one_le_clampImages (n : Int) : 1 ≤ clampImages n := by
  unfold clampImages
  have h1 : (1 : Int) ≤ max n 1 := le_max_right n 1
  have h4 : (1 : Int) ≤ 4 := by norm_num
  exact le_min h1 h4

/-- C7.  `creditsUsed` (the reserved credits) of a freshly created record is
the clamp of the requested image count into [1, 4] (an integer ≥ 1), and no
later `process`, `cancel` or `retry` ever changes the `creditsUsed` of any
stored record. -/
theorem c7_credits_reserved_clamped :
    (∀ dl (s : St) uid req gid g,
      s.gens gid = none → (createGeneration dl s uid req gid).gens gid = some g →
      g.creditsUsed = (clampImages (jsOrInt req.imageCount 1)).toNat ∧
        1 ≤ g.creditsUsed) ∧
    (∀ env (s : St) gid gid' g, s.gens gid' = some g →
      ∃ g', ((processGeneration env s gid).1).gens gid' = some g' ∧
        g'.creditsUsed = g.creditsUsed) ∧
    (∀ (s : St) uid gid t gid' g, s.gens gid' = some g →
      ∃ g', (cancelGeneration s uid gid t).gens gid' = some g' ∧
        g'.creditsUsed = g.creditsUsed) ∧
    (∀ (s : St) uid gid gid' g, s.gens gid' = some g →
      ∃ g', (retryGeneration s uid gid).gens gid' = some g' ∧
        g'.creditsUsed = g.creditsUsed) := by
  refine ⟨?_, ?_, ?_, ?_⟩
  · intro dl s uid req gid g hnone hsome
    unfold createGeneration at hsome
    cases hu : s.users uid with
    | none =>
      rw [hu] at hsome
      rw [hnone] at hsome
      cases hsome
    | some u =>
      rw [hu] at hsome
      dsimp only at hsome
      split at hsome
      · rw [hnone] at hsome
        cases hsome
      · split at hsome
        · rw [hnone] at hsome
          cases hsome
        · split at hsome
          · rw [hnone] at hsome
            cases hsome
          · split at hsome
            · rw [updGen_gens_self] at hsome
              injection hsome with hsome
              subst hsome
              refine ⟨rfl, ?_⟩
              have h1 := one_le_clampImages (jsOrInt req.imageCount 1)
              have h0 : (0 : Int) ≤ clampImages (jsOrInt req.imageCount 1) :=
                le_trans (by norm_num) h1
              exact (Int.le_toNat h0).mpr (by exact_mod_cast h1)
            · rw [hnone] at hsome
              cases hsome
  · intro env s gid gid' g hg
    by_cases hi : gid' = gid
    · subst hi
      exact processGeneration_gens_self_credits env s gid' g hg
    · refine ⟨g, ?_, rfl⟩
      rw [processGeneration_gens_other env s gid gid' hi]
      exact hg
  · intro s uid gid t gid' g hg
    exact cancelGeneration_preserves_credits s uid gid t gid' g hg
  · intro s uid gid gid' g hg
    exact retryGeneration_preserves_credits s uid gid gid' g hg

/-- Witness for C7 at concrete inputs: the record created by the C2 request
(`imageCount = 1`) reserves exactly 1 credit, and a process, a cancel and a
retry on the concrete store leave `creditsUsed` unchanged. -/
theorem c7_witness :
    ((init usersC2).gens 0 = none ∧
      (createGeneration dlC2 (init usersC2) 0 reqC2 0).gens 0 = some gC2 ∧
      (gC2.creditsUsed = (clampImages (jsOrInt reqC2.imageCount 1)).toNat ∧
        1 ≤ gC2.creditsUsed)) ∧
    (sC3.gens 0 = some gC1 ∧
      ∃ g', ((processGeneration envC1 sC3 0).1).gens 0 = some g' ∧
        g'.creditsUsed = gC1.creditsUsed) ∧
    (∃ g', (cancelGeneration sC3 0 0 5).gens 0 = some g' ∧
      g'.creditsUsed = gC1.creditsUsed) ∧
    (∃ g', (retryGeneration sC3 0 0).gens 0 = some g' ∧
      g'.creditsUsed = gC1.creditsUsed) := by
  refine ⟨⟨rfl, rfl, ?_⟩, ⟨rfl, ?_⟩, ?_, ?_⟩
  · exact c7_credits_reserved_clamped.1 dlC2 (init usersC2) 0 reqC2 0 gC2 rfl rfl
  · exact c7_credits_reserved_clamped.2.1 envC1 sC3 0 0 gC1 rfl
  · exact c7_credits_reserved_clamped.2.2.1 sC3 0 0 5 0 gC1 rfl
  · exact c7_credits_reserved_clamped.2.2.2 sC3 0 0 0 gC1 rfl

/-! ### C8: what retry resets and what it preserves -/

/-- The spec's `requestParameters` snapshot (§3): the generation settings of
the `parameters` subdocument.  The record's prompt is its own field in the
spec's data model; its duplicate `parameters.prompt` is not part of the
snapshot (it is the legacy duplication flagged in the spec's design notes). -/
def requestParameters (p : Params) :=
  (p.negativePrompt, p.style, p.quality, p.steps, p.guidanceScale, p.seed,
   p.width, p.height, p.imageCount, p.num_images, p.strength, p.guidance_scale,
   p.num_inference_steps)

/-- C8.  Retrying a failed record (owned by the requesting user, with the
credit pre-check passing) resets status to pending and clears failureReason,
outputImageRefs, both timestamps and the derived duration, while preserving
the id (the record stays at its key, all other records untouched), ownerId,
prompt, creditsUsed and every field of the requestParameters snapshot. -/
theorem c8_retry_resets (s : St) (uid gid : Nat) (g : Gen) (u : User)
    (hg : s.gens gid = some g) (hown : g.userId = uid) (hu : s.users uid = some u)
    (hf : g.status = .failed)
    (hcred : u.isPremiumActive = true ∨ g.creditsUsed ≤ u.credits) :
    ∃ g', (retryGeneration s uid gid).gens gid = some g' ∧
      g'.status = .pending ∧ g'.failureReason = none ∧ g'.generatedImageUrls = [] ∧
      g'.processingStartedAt = none ∧ g'.completedAt = none ∧
      g'.processingTimeMs = none ∧
      g'.userId = g.userId ∧ g'.prompt = g.prompt ∧ g'.creditsUsed = g.creditsUsed ∧
      requestParameters g'.params = requestParameters g.params ∧
      (∀ i, i ≠ gid → (retryGeneration s uid gid).gens i = s.gens i) := by
  unfold retryGeneration
  rw [hg, hu]
  dsimp only
  rw [if_pos hown, if_pos hf]
  split
  · rename_i hcond
    exfalso
    rcases hcred with h | h
    · rw [h] at hcond
      simp at hcond
    · have hnl : ¬ u.credits < g.creditsUsed := by omega
      simp [hnl] at hcond
  · by_cases hpp : g.params.pprompt.getD "" = "" ∧ g.prompt ≠ ""
    · rw [if_pos hpp]
      exact ⟨_, updGen_gens_self .., rfl, rfl, rfl, rfl, rfl, rfl, rfl, rfl, rfl, rfl,
        fun i hi => updGen_gens_ne _ _ _ _ hi⟩
    · rw [if_neg hpp]
      exact ⟨_, updGen_gens_self .., rfl, rfl, rfl, rfl, rfl, rfl, rfl, rfl, rfl, rfl,
        fun i hi => updGen_gens_ne _ _ _ _ hi⟩

/-- Store for the C8 witness: the cancelled (failed) record `gC4f` owned by
`uC3`, whose balance of 5 covers the reserved 1 credit. -/
def sC8 : St :=
  ⟨fun i => if i = 0 then some uC3 else none,
   fun i => if i = 0 then some gC4f else none⟩

/-- Witness for C8 at a concrete input: retrying the failed record resets it
to a fresh pending record while keeping owner, prompt, creditsUsed and the
parameter snapshot. -/
theorem c8_witness :
    (sC8.gens 0 = some gC4f ∧ gC4f.userId = 0 ∧ sC8.users 0 = some uC3 ∧
      gC4f.status = .failed ∧ gC4f.creditsUsed ≤ uC3.credits) ∧
    (∃ g', (retryGeneration sC8 0 0).gens 0 = some g' ∧
      g'.status = .pending ∧ g'.failureReason = none ∧ g'.generatedImageUrls = [] ∧
      g'.processingStartedAt = none ∧ g'.completedAt = none ∧
      g'.processingTimeMs = none ∧
      g'.userId = gC4f.userId ∧ g'.prompt = gC4f.prompt ∧
      g'.creditsUsed = gC4f.creditsUsed ∧
      requestParameters g'.params = requestParameters gC4f.params ∧
      (∀ i, i ≠ 0 → (retryGeneration sC8 0 0).gens i = sC8.gens i)) :=
  ⟨⟨rfl, rfl, rfl, rfl, by decide⟩,
   c8_retry_resets sC8 0 0 gC4f uC3 rfl rfl rfl rfl (Or.inr (by decide))⟩

/-! ### C9: artifact store policy for local-scheme references and fallback -/

/-- C9.  `downloadAndUploadToS3` returns unavailable (`null`) for every
`file://` local-scheme reference without consulting the network or the
store, and for a genuinely remote (non-empty, non-local) URL whose fetch or
store fails it returns the original remote reference as the degraded
fallback — so the fallback is never applied to a local-scheme reference. -/
theorem c9_artifact_store_policy (dl : DlEnv) (url : String) :
    (startsWith "file://" url = true → downloadAndUploadToS3 dl url = none) ∧
    (startsWith "file://" url = false → url ≠ "" → dl.fetchStoreOk url = false →
      downloadAndUploadToS3 dl url = some url) := by
  constructor
  · intro h
    unfold downloadAndUploadToS3
    by_cases he : url = ""
    · simp [he]
    · simp [he, h]
  · intro h hne hf
    unfold downloadAndUploadToS3
    simp [hne, h, hf]

/-- A store oracle whose fetch/store always fails, for the C9 witness. -/
def dlC9 : DlEnv := ⟨fun _ => false, fun u => "s3://" ++ u⟩

/-- Witness for C9 at concrete inputs: a `file://` reference yields
unavailable, and a failing remote URL falls back to itself. -/
theorem c9_witness :
    (startsWith "file://" "file://a.png" = true ∧
      downloadAndUploadToS3 dlC9 "file://a.png" = none) ∧
    (startsWith "file://" "https://a.png" = false ∧ "https://a.png" ≠ "" ∧
      dlC9.fetchStoreOk "https://a.png" = false ∧
      downloadAndUploadToS3 dlC9 "https://a.png" = some "https://a.png") :=
  ⟨⟨rfl, (c9_artifact_store_policy dlC9 "file://a.png").1 rfl⟩,
   ⟨rfl, by decide, rfl,
    (c9_artifact_store_policy dlC9 "https://a.png").2 rfl (by decide) rfl⟩⟩

/-! ### C10: the balance pre-checks at creation and retry -/

/-- C10.  Although deduction is deferred to completion, `createGeneration`
rejects a request from a non-premium user whose balance is below the
computed reserve before creating any record (the whole state is unchanged);
consequently a record created for a non-premium owner was created while the
balance covered `creditsUsed`; and `retryGeneration` refuses to reset a
failed record when the non-premium owner's balance is below its
`creditsUsed`, leaving the state unchanged. -/
theorem c10_balance_prechecks :
    (∀ dl (s : St) uid req gid u, s.users uid = some u →
      u.isPremiumActive = false →
      u.credits < (clampImages (jsOrInt req.imageCount 1)).toNat →
      createGeneration dl s uid req gid = s) ∧
    (∀ dl (s : St) uid req gid g u, s.users uid = some u →
      u.isPremiumActive = false →
      s.gens gid = none → (createGeneration dl s uid req gid).gens gid = some g →
      g.creditsUsed ≤ u.credits) ∧
    (∀ (s : St) uid gid g u, s.gens gid = some g → g.userId = uid →
      g.status = .failed → s.users uid = some u → u.isPremiumActive = false →
      u.credits < g.creditsUsed →
      retryGeneration s uid gid = s) := by
  refine ⟨?_, ?_, ?_⟩
  · intro dl s uid req gid u hu hprem hlt
    unfold createGeneration
    rw [hu]
    dsimp only
    split
    · rfl
    · split
      · rfl
      · rename_i hcond
        exfalso
        exact hcond (by simp [hprem, hlt])
  · intro dl s uid req gid g u hu hprem hnone hsome
    unfold createGeneration at hsome
    rw [hu] at hsome
    dsimp only at hsome
    split at hsome
    · rw [hnone] at hsome
      cases hsome
    · split at hsome
      · rw [hnone] at hsome
        cases hsome
      · rename_i hcond
        split at hsome
        · rw [hnone] at hsome
          cases hsome
        · split at hsome
          · rw [updGen_gens_self] at hsome
            injection hsome with hsome
            subst hsome
            have hge : ¬ u.credits < (clampImages (jsOrInt req.imageCount 1)).toNat := by
              intro hlt
              exact hcond (by simp [hprem, hlt])
            simpa using Nat.le_of_not_lt hge
          · rw [hnone] at hsome
            cases hsome
  · intro s uid gid g u hg hown hf hu hprem hlt
    unfold retryGeneration
    rw [hg, hu]
    dsimp only
    rw [if_pos hown, if_pos hf]
    split
    · rfl
    · rename_i hcond
      exfalso
      exact hcond (by simp [hprem, hlt])

/-- Store for parts one and three of the C10 witness: the broke (0-credit)
non-premium user `uC1` owning only the failed record `gC4f`. -/
def sC10 : St :=
  ⟨fun i => if i = 0 then some uC1 else none,
   fun i => if i = 0 then some gC4f else none⟩

/-- Witness for C10 at concrete inputs: creation is rejected wholesale for
the broke user; the record created for the funded non-premium user was
created under a covering balance; retry refuses for the broke user. -/
theorem c10_witness :
    (sC10.users 0 = some uC1 ∧ uC1.isPremiumActive = false ∧
      uC1.credits < (clampImages (jsOrInt reqC2.imageCount 1)).toNat ∧
      createGeneration dlC2 sC10 0 reqC2 1 = sC10) ∧
    ((init usersC2).gens 0 = none ∧
      (createGeneration dlC2 (init usersC2) 0 reqC2 0).gens 0 = some gC2 ∧
      gC2.creditsUsed ≤ 5) ∧
    (sC10.gens 0 = some gC4f ∧ gC4f.status = .failed ∧
      uC1.credits < gC4f.creditsUsed ∧
      retryGeneration sC10 0 0 = sC10) := by
  refine ⟨⟨rfl, rfl, by decide, ?_⟩, ⟨rfl, rfl, ?_⟩, ⟨rfl, rfl, by decide, ?_⟩⟩
  · exact c10_balance_prechecks.1 dlC2 sC10 0 reqC2 1 uC1 rfl rfl (by decide)
  · exact c10_balance_prechecks.2.1 dlC2 (init usersC2) 0 reqC2 0 gC2 ⟨5, false⟩
      rfl rfl rfl rfl
  · exact c10_balance_prechecks.2.2 sC10 0 0 gC4f uC1 rfl rfl rfl rfl rfl (by decide)

/-- Witness for C3 at a concrete input: processing the pending record with a
succeeding provider/store environment completes it and deducts exactly its
1 reserved credit from the non-premium owner's balance of 5, touching no
other balance. -/
theorem c3_witness :
    (sC3.gens 0 = some gC1 ∧ gC1.status = .pending ∧
      sC3.users gC1.userId = some uC3 ∧ uC3.isPremiumActive = false) ∧
    (gC1.creditsUsed ≤ uC3.credits ∧
     ((processGeneration envC1 sC3 0).1).users gC1.userId =
       some { uC3 with credits := uC3.credits - gC1.creditsUsed } ∧
     (∀ i, i ≠ gC1.userId → ((processGeneration envC1 sC3 0).1).users i = sC3.users i)) := by
  refine ⟨⟨rfl, rfl, rfl, rfl⟩, ?_⟩
  have h := (c3_deduction_discipline sC3).2.2.2 envC1 0 gC1 uC3 rfl rfl rfl
  exact (h.2 rfl).1 ⟨_, rfl, rfl⟩

/-- Witness for the amended C1, applying it to the concrete counterexample
state. -/
theorem c1_witness :
    (sC1.gens 0 = some gC1 ∧ gC1.status = .pending ∧ sC1.users gC1.userId = some uC1 ∧
      uC1.isPremiumActive = false ∧ uC1.credits < gC1.creditsUsed ∧
      (callFalAI envC1.provider envC1.jitter 3).result =
        .ok ⟨some ["https://fal/img1.jpg"], none, none⟩ ∧
      extractUrls ⟨some ["https://fal/img1.jpg"], none, none⟩ ≠ []) ∧
    ((∃ g', ((processGeneration envC1 sC1 0).1).gens 0 = some g' ∧
      g'.status = .failed ∧
      g'.failureReason = some "Insufficient credits" ∧
      g'.generatedImageUrls = (extractUrls ⟨some ["https://fal/img1.jpg"], none, none⟩).filterMap
        (downloadAndUploadToS3 envC1.dl)) ∧
    ((processGeneration envC1 sC1 0).1).users = sC1.users) :=
  ⟨⟨rfl, rfl, rfl, rfl, by decide, rfl, by decide⟩,
   c1_deduction_failure_marks_failed envC1 sC1 0 gC1 uC1
     ⟨some ["https://fal/img1.jpg"], none, none⟩ rfl rfl rfl rfl (by decide) rfl (by decide)⟩

end ImageAI
